import Mathlib

/- Verification of the brolib chat package: the response-code space, the
   client result wrapper and its error derivation, the macro classifier,
   the client operation layer and the feed message envelope.

   Machine integers of the source (uint8, uint64) are modelled as Nat; all
   response-code constants are small literals, no arithmetic overflows. -/

namespace Brolib

/-! ## Response code space

Constants from the source's three const blocks (server-side iota 0..7,
client-side iota+64 = 64..69, success iota+128 = 128..129). -/

/-- Server-side: unhandled error (iota = 0). -/
def BROCHAT_RESPONSE_CODE_UNHANDLED_ERROR : Nat := 0

/-- Server-side: forbidden operation. -/
def BROCHAT_RESPONSE_CODE_FORBIDDEN_ERROR : Nat := 1

/-- Server-side: validation error. -/
def BROCHAT_RESPONSE_CODE_VALIDATION_ERROR : Nat := 2

/-- Server-side: request body parsing error. -/
def BROCHAT_RESPONSE_CODE_REQUEST_PARSE_ERROR : Nat := 3

/-- Server-side: resource not found. -/
def BROCHAT_RESPONSE_CODE_NOT_FOUND_ERROR : Nat := 4

/-- Server-side: data conflict. -/
def BROCHAT_RESPONSE_CODE_DATA_CONFLICT_ERROR : Nat := 5

/-- Server-side: invalid operation. -/
def BROCHAT_RESPONSE_CODE_INVALID_OPERATION : Nat := 6

/-- Server-side: unauthorized operation. -/
def BROCHAT_RESPONSE_CODE_UNAUTHORIZED_ERROR : Nat := 7

/-- Client-side: invalid host address (iota + 64). -/
def BROCHAT_RESPONSE_CODE_INVALID_HOST_ADDRESS : Nat := 64

/-- Client-side: connection timeout. -/
def BROCHAT_RESPONSE_CODE_CONNECTION_TIMEOUT_ERROR : Nat := 65

/-- Client-side: request content not formatted properly. -/
def BROCHAT_RESPONSE_CODE_REQUEST_FORMATTING_ERROR : Nat := 66

/-- Client-side: unexpected response from the server. -/
def BROCHAT_RESPONSE_CODE_UNEXEPECTED_RESPONSE_ERROR : Nat := 67

/-- Client-side: generic request error. -/
def BROCHAT_RESPONSE_CODE_GENERIC_REQUEST_ERROR : Nat := 68

/-- Client-side: generic connection error. -/
def BROCHAT_RESPONSE_CODE_GENERIC_CONNECTION_ERROR : Nat := 69

/-- Success (iota + 128). -/
def BROCHAT_RESPONSE_CODE_SUCCESS : Nat := 128

/-- Success with no content. -/
def BROCHAT_RESPONSE_CODE_NO_CONTENT : Nat := 129

/-- The server-side failure constants, in declaration order. -/
def serverFailureCodes : List Nat :=
  [BROCHAT_RESPONSE_CODE_UNHANDLED_ERROR,
   BROCHAT_RESPONSE_CODE_FORBIDDEN_ERROR,
   BROCHAT_RESPONSE_CODE_VALIDATION_ERROR,
   BROCHAT_RESPONSE_CODE_REQUEST_PARSE_ERROR,
   BROCHAT_RESPONSE_CODE_NOT_FOUND_ERROR,
   BROCHAT_RESPONSE_CODE_DATA_CONFLICT_ERROR,
   BROCHAT_RESPONSE_CODE_INVALID_OPERATION,
   BROCHAT_RESPONSE_CODE_UNAUTHORIZED_ERROR]

/-- The client-side/transport failure constants, in declaration order. -/
def clientFailureCodes : List Nat :=
  [BROCHAT_RESPONSE_CODE_INVALID_HOST_ADDRESS,
   BROCHAT_RESPONSE_CODE_CONNECTION_TIMEOUT_ERROR,
   BROCHAT_RESPONSE_CODE_REQUEST_FORMATTING_ERROR,
   BROCHAT_RESPONSE_CODE_UNEXEPECTED_RESPONSE_ERROR,
   BROCHAT_RESPONSE_CODE_GENERIC_REQUEST_ERROR,
   BROCHAT_RESPONSE_CODE_GENERIC_CONNECTION_ERROR]

/-- The success constants, in declaration order. -/
def successCodes : List Nat :=
  [BROCHAT_RESPONSE_CODE_SUCCESS, BROCHAT_RESPONSE_CODE_NO_CONTENT]

/-! ## Result wrapper -/

/-- BroChatClientResult: a response code plus error-detail strings. -/
structure BroChatClientResult where
  ResponseCode : Nat
  ErrorDetails : List String
deriving DecidableEq

/-- makeBroChatClientResult: builds a result from a code and details. -/
def makeBroChatClientResult (code : Nat) (details : List String) :
    BroChatClientResult :=
  { ResponseCode := code, ErrorDetails := details }

/-- The Error method on BroChatClientResult. Go returns an `error` (nil or a
message); modelled as `Option String` (none for nil). Mirrors the source:
nil when the code is strictly greater than BROCHAT_RESPONSE_CODE_SUCCESS,
otherwise a switch over the failure codes with default "unknown error". -/
def BroChatClientResult.Error (c : BroChatClientResult) : Option String :=
  if BROCHAT_RESPONSE_CODE_SUCCESS < c.ResponseCode then
    none
  else if c.ResponseCode = BROCHAT_RESPONSE_CODE_UNHANDLED_ERROR then
    some "an unhandled/unexpected error occured"
  else if c.ResponseCode = BROCHAT_RESPONSE_CODE_FORBIDDEN_ERROR then
    some "forbidden operation"
  else if c.ResponseCode = BROCHAT_RESPONSE_CODE_VALIDATION_ERROR then
    some "validation error"
  else if c.ResponseCode = BROCHAT_RESPONSE_CODE_REQUEST_PARSE_ERROR then
    some "request body parsing error"
  else if c.ResponseCode = BROCHAT_RESPONSE_CODE_NOT_FOUND_ERROR then
    some "resource not found"
  else if c.ResponseCode = BROCHAT_RESPONSE_CODE_DATA_CONFLICT_ERROR then
    some "data conflict"
  else if c.ResponseCode = BROCHAT_RESPONSE_CODE_INVALID_OPERATION then
    some "invalid operation"
  else if c.ResponseCode = BROCHAT_RESPONSE_CODE_INVALID_HOST_ADDRESS then
    some "invalid host address"
  else if c.ResponseCode = BROCHAT_RESPONSE_CODE_CONNECTION_TIMEOUT_ERROR then
    some "connection timeout"
  else if c.ResponseCode = BROCHAT_RESPONSE_CODE_REQUEST_FORMATTING_ERROR then
    some "request formatting error"
  else if c.ResponseCode = BROCHAT_RESPONSE_CODE_UNEXEPECTED_RESPONSE_ERROR then
    some "server response parsing error"
  else if c.ResponseCode = BROCHAT_RESPONSE_CODE_GENERIC_REQUEST_ERROR then
    some "generic request error"
  else if c.ResponseCode = BROCHAT_RESPONSE_CODE_GENERIC_CONNECTION_ERROR then
    some "generic connection error"
  else
    some "unknown error"

/-- C1: the claim says Error() is nil exactly when the code is a success code
(code at least 128), in particular nil at BROCHAT_RESPONSE_CODE_SUCCESS = 128.
The code uses a strict comparison, so at exactly 128 it falls through the
switch to "unknown error": evaluating the code at the failing input. -/
theorem c1_success_code_gets_unknown_error :
    (makeBroChatClientResult BROCHAT_RESPONSE_CODE_SUCCESS []).Error =
      some "unknown error" ∧
    (makeBroChatClientResult BROCHAT_RESPONSE_CODE_SUCCESS []).Error ≠ none ∧
    (makeBroChatClientResult BROCHAT_RESPONSE_CODE_NO_CONTENT []).Error = none := by
  decide

/-- C2 counterexample: BROCHAT_RESPONSE_CODE_UNAUTHORIZED_ERROR is a defined
failure code inside the known set, yet Error() returns the fallback message
"unknown error" for it (the switch has no case for it). -/
theorem c2_unauthorized_gets_fallback :
    (makeBroChatClientResult BROCHAT_RESPONSE_CODE_UNAUTHORIZED_ERROR []).Error =
      some "unknown error" := by
  decide

/-- C2 amended: Error() returns a specific human-readable message for every
defined failure response code except BROCHAT_RESPONSE_CODE_UNAUTHORIZED_ERROR,
which receives the fallback "unknown error"; every failure code (below 128)
outside the known set also receives the fallback; and the message depends on
the response code alone, never on the attached details. -/
theorem c2_error_description_mapping :
    ((makeBroChatClientResult BROCHAT_RESPONSE_CODE_UNHANDLED_ERROR []).Error =
        some "an unhandled/unexpected error occured" ∧
      (makeBroChatClientResult BROCHAT_RESPONSE_CODE_FORBIDDEN_ERROR []).Error =
        some "forbidden operation" ∧
      (makeBroChatClientResult BROCHAT_RESPONSE_CODE_VALIDATION_ERROR []).Error =
        some "validation error" ∧
      (makeBroChatClientResult BROCHAT_RESPONSE_CODE_REQUEST_PARSE_ERROR []).Error =
        some "request body parsing error" ∧
      (makeBroChatClientResult BROCHAT_RESPONSE_CODE_NOT_FOUND_ERROR []).Error =
        some "resource not found" ∧
      (makeBroChatClientResult BROCHAT_RESPONSE_CODE_DATA_CONFLICT_ERROR []).Error =
        some "data conflict" ∧
      (makeBroChatClientResult BROCHAT_RESPONSE_CODE_INVALID_OPERATION []).Error =
        some "invalid operation" ∧
      (makeBroChatClientResult BROCHAT_RESPONSE_CODE_INVALID_HOST_ADDRESS []).Error =
        some "invalid host address" ∧
      (makeBroChatClientResult BROCHAT_RESPONSE_CODE_CONNECTION_TIMEOUT_ERROR []).Error =
        some "connection timeout" ∧
      (makeBroChatClientResult BROCHAT_RESPONSE_CODE_REQUEST_FORMATTING_ERROR []).Error =
        some "request formatting error" ∧
      (makeBroChatClientResult BROCHAT_RESPONSE_CODE_UNEXEPECTED_RESPONSE_ERROR []).Error =
        some "server response parsing error" ∧
      (makeBroChatClientResult BROCHAT_RESPONSE_CODE_GENERIC_REQUEST_ERROR []).Error =
        some "generic request error" ∧
      (makeBroChatClientResult BROCHAT_RESPONSE_CODE_GENERIC_CONNECTION_ERROR []).Error =
        some "generic connection error" ∧
      (makeBroChatClientResult BROCHAT_RESPONSE_CODE_UNAUTHORIZED_ERROR []).Error =
        some "unknown error" ∧
      ∀ c : Fin 128,
        c.val ∉ serverFailureCodes → c.val ∉ clientFailureCodes →
          (makeBroChatClientResult c.val []).Error = some "unknown error") ∧
    ∀ (c : Nat) (d : List String),
      (makeBroChatClientResult c d).Error = (makeBroChatClientResult c []).Error :=
  ⟨by decide, fun _ _ => rfl⟩

/-- C3: every server-side failure constant lies in [0, 63], every client-side
failure constant lies in [64, 127], every success constant is at least 128,
every success constant is greater than every failure constant, and among the
defined constants the comparison with 128 separates success from failure. -/
theorem c3_response_code_ranges :
    (∀ c ∈ serverFailureCodes, c ≤ 63) ∧
    (∀ c ∈ clientFailureCodes, 64 ≤ c ∧ c ≤ 127) ∧
    (∀ c ∈ successCodes, 128 ≤ c) ∧
    (∀ s ∈ successCodes, ∀ f ∈ serverFailureCodes ++ clientFailureCodes, f < s) ∧
    (∀ c ∈ serverFailureCodes ++ clientFailureCodes ++ successCodes,
      128 ≤ c ↔ c ∈ successCodes) := by
  decide

/-! ## Macro classifier

From macro.go. MacroType is a string type in the source. -/

/-- MacroType: a string-typed enumeration. -/
abbrev MacroType := String

/-- The no-macro type. -/
def MACRO_TYPE_NONE : MacroType := "none"

/-- The dice-roll macro. -/
def MACRO_TYPE_ROLL : MacroType := "dice-roll"

/-- The coin-flip macro. -/
def MACRO_TYPE_FLIP : MacroType := "coin-flip"

/-- The unrecognized macro. -/
def MACRO_TYPE_UNRECOGNIZED : MacroType := "unrecognized"

/-- Embeds strings.Split(s, " ")[0]: the prefix of s up to (not including)
its first space character; s itself when s has no space. -/
def goSplitSpaceHead (s : String) : String :=
  { data := s.data.takeWhile (fun c => c != ' ') }

/-- Embeds strings.HasPrefix. -/
def goHasPrefix (s p : String) : Bool :=
  p.data.isPrefixOf s.data

/-- Embeds strings.ToLower. Go lowercases Unicode letters; Char.toLower
agrees with it on ASCII, which covers every command token compared here. -/
def goToLower (s : String) : String :=
  { data := s.data.map Char.toLower }

/-- IsMacro from macro.go: take the first word (split on the space
character), require the "/" prefix, lowercase, then match the command. -/
def IsMacro (rawMacro : String) : Bool × MacroType :=
  let val := goSplitSpaceHead rawMacro
  if !(goHasPrefix val "/") then
    (false, MACRO_TYPE_NONE)
  else
    let low := goToLower val
    if low = "/roll" then (true, MACRO_TYPE_ROLL)
    else if low = "/flip" then (true, MACRO_TYPE_FLIP)
    else (true, MACRO_TYPE_UNRECOGNIZED)

/-- C4: the classifier's test vector: "/roll 2d6" is a roll, "/FLIP" is a
flip (command token matched case-insensitively), "/nonsense" is an
unrecognized macro, "hello world" and "" are not macros. -/
theorem c4_macro_test_vector :
    IsMacro "/roll 2d6" = (true, MACRO_TYPE_ROLL) ∧
    IsMacro "/FLIP" = (true, MACRO_TYPE_FLIP) ∧
    IsMacro "/nonsense" = (true, MACRO_TYPE_UNRECOGNIZED) ∧
    IsMacro "hello world" = (false, MACRO_TYPE_NONE) ∧
    IsMacro "" = (false, MACRO_TYPE_NONE) := by
  decide

/-- C5 counterexample: a tab does not delimit the command token. For
"/roll\t2d6" the token considered is the whole string, so the classifier
answers unrecognized, not the roll result the claimed whitespace split
would give. -/
theorem c5_tab_is_not_a_separator :
    IsMacro "/roll\t2d6" = (true, MACRO_TYPE_UNRECOGNIZED) ∧
    IsMacro "/roll\t2d6" ≠ (true, MACRO_TYPE_ROLL) := by
  decide

/-- Helper: takeWhile over an append whose left part wholly satisfies the
predicate and whose right part starts with a failing element. -/
theorem takeWhile_append_stop {p : Char → Bool} (l : List Char) (x : Char)
    (m : List Char) (hl : ∀ c ∈ l, p c = true) (hx : p x = false) :
    (l ++ x :: m).takeWhile p = l := by
  induction l with
  | nil => simp [List.takeWhile, hx]
  | cons a l ih =>
    have ha : p a = true := hl a (List.mem_cons_self a l)
    simp only [List.cons_append, List.takeWhile, ha]
    have : ∀ c ∈ l, p c = true := fun c hc => hl c (List.mem_cons_of_mem a hc)
    simp [ih this]

/-- Helper: takeWhile is the identity when every element satisfies the
predicate. -/
theorem takeWhile_all (p : Char → Bool) (l : List Char)
    (hl : ∀ c ∈ l, p c = true) : l.takeWhile p = l := by
  induction l with
  | nil => rfl
  | cons a l ih =>
    have ha : p a = true := hl a (List.mem_cons_self a l)
    simp only [List.takeWhile, ha]
    simp [ih (fun c hc => hl c (List.mem_cons_of_mem a hc))]

/-- Helper: the first token of a space-free string followed by a space is
that string, and a space-free string is its own first token. -/
theorem goSplitSpaceHead_append (a b : String) (h : ∀ c ∈ a.data, c ≠ ' ') :
    goSplitSpaceHead (a ++ " " ++ b) = a ∧ goSplitSpaceHead a = a := by
  have hall : ∀ c ∈ a.data, (c != ' ') = true := by
    intro c hc
    simpa using h c hc
  constructor
  · show String.mk _ = a
    have hdata : (a ++ " " ++ b).data = a.data ++ ' ' :: b.data := by
      simp [String.data_append]
    rw [hdata, takeWhile_append_stop a.data ' ' b.data hall (by decide)]
  · show String.mk _ = a
    rw [takeWhile_all _ a.data hall]

/-- C5 amended: the classifier obtains the command token by splitting the
input at its first space character only (other whitespace such as a tab
does not delimit the token): prepending any space-free token to a space and
arbitrary rest classifies exactly as the token alone does. -/
theorem c5_first_space_token (a b : String) (h : ∀ c ∈ a.data, c ≠ ' ') :
    IsMacro (a ++ " " ++ b) = IsMacro a := by
  obtain ⟨h1, h2⟩ := goSplitSpaceHead_append a b h
  simp only [IsMacro, h1, h2]

/-- C5 amended witness: the space split at work on a concrete input. -/
theorem c5_first_space_token_witness :
    IsMacro ("/roll" ++ " " ++ "2d6") = IsMacro "/roll" :=
  c5_first_space_token "/roll" "2d6" (by decide)

/-! ## Content data model

Structures from the source's model file. time.Time is external; it is
modelled opaquely by the textual representation it marshals to. -/

/-- Opaque model of time.Time: only its marshalled text is observable. -/
structure GoTime where
  rep : String
deriving DecidableEq

/-- The zero time.Time value (opaque). -/
def GoTime.zero : GoTime := { rep := "" }

/-- RelationshipType is uint8 bit flags in the source. -/
abbrev RelationshipType := Nat

/-- ChannelType is a uint8 enumeration in the source. -/
abbrev ChannelType := Nat

/-- RoomMembershipModel is a string type in the source. -/
abbrev RoomMembershipModel := String

/-- UserRelationship from the model file. The source field Type is renamed
Type' because Type is a Lean keyword. -/
structure UserRelationship where
  UserId : String
  Type' : RelationshipType
  DirectMessageChannelId : String
  Username : String
  LastOnlineUtc : GoTime
  IsOnline : Bool
deriving DecidableEq

/-- UserInfo from the model file. -/
structure UserInfo where
  Id : String
  Username : String
  LastOnlineUtc : GoTime
deriving DecidableEq

/-- The zero UserInfo value. -/
def UserInfo.zero : UserInfo :=
  { Id := "", Username := "", LastOnlineUtc := GoTime.zero }

/-- Room from the model file. -/
structure Room where
  Id : String
  Name : String
  ChannelId : String
  Owner : UserInfo
  MembershipModel : RoomMembershipModel
  CreatedAtUtc : GoTime
deriving DecidableEq

/-- The zero Room value. -/
def Room.zero : Room :=
  { Id := "", Name := "", ChannelId := "", Owner := UserInfo.zero,
    MembershipModel := "", CreatedAtUtc := GoTime.zero }

/-- User from the model file. -/
structure User where
  Id : String
  Username : String
  Relationships : List UserRelationship
  Rooms : List Room
  LastOnlineUtc : GoTime
  CreatedAtUtc : GoTime
deriving DecidableEq

/-- The zero User value (nil slices modelled as empty lists). -/
def User.zero : User :=
  { Id := "", Username := "", Relationships := [], Rooms := [],
    LastOnlineUtc := GoTime.zero, CreatedAtUtc := GoTime.zero }

/-- Channel from the model file; field Type renamed Type'. -/
structure Channel where
  Id : String
  Type' : ChannelType
  Users : List UserInfo
deriving DecidableEq

/-- The zero Channel value. -/
def Channel.zero : Channel := { Id := "", Type' := 0, Users := [] }

/-- ChatMessage from the model file. -/
structure ChatMessage where
  Id : String
  ChannelId : String
  SenderUserId : String
  Content : String
  RecievedAtUtc : GoTime
deriving DecidableEq

/-! ## Transport model and result plumbing

The HTTP transport, URL parsing and JSON decoding are external
collaborators; each fallible external step appears as an explicit outcome:
urlOk for buildUrl, marshalOk for json.Marshal of a request body, reqOk for
http.NewRequest, and an HttpOutcome for httpClient.Do together with the
decoding of the response body. -/

/-- Modelled from the spec: the server error body shape (a numeric response
code field plus human detail strings). The struct the source decodes into
is not among the repository files given; only its Code and ErrorDetails
fields are read by handleUnsuccessfulStatusCode. -/
structure BroChatError where
  Code : Nat
  ErrorDetails : List String
deriving DecidableEq

/-- A transport error as the operations observe it: whether it is a
net.Error, and whether that net.Error reports a timeout. -/
structure GoError where
  isNetError : Bool
  isTimeout : Bool
deriving DecidableEq

/-- A delivered HTTP response, carrying the status code and the outcomes of
the two ways the body may be decoded: as a server error shape and as the
operation's expected content shape (none = not decodable). -/
structure HttpResponse (T : Type) where
  StatusCode : Nat
  errorBody : Option BroChatError
  contentBody : Option T

/-- The outcome of httpClient.Do: a transport error or a response. -/
inductive HttpOutcome (T : Type) where
  | failure (err : GoError)
  | response (res : HttpResponse T)

/-- BroChatClientContentResult: a result with embedded BroChatClientResult
plus content. -/
structure BroChatClientContentResult (T : Type) where
  result : BroChatClientResult
  Content : T

/-- makeBroChatClientContentResult from the source. -/
def makeBroChatClientContentResult {T : Type} (code : Nat) (content : T)
    (details : List String) : BroChatClientContentResult T :=
  { result := makeBroChatClientResult code details, Content := content }

/-- handleHttpRequestError: timeout net.Errors map to the timeout code, every
other transport error to the generic connection error code. -/
def handleHttpRequestError (err : GoError) : BroChatClientResult :=
  if err.isNetError && err.isTimeout then
    makeBroChatClientResult BROCHAT_RESPONSE_CODE_CONNECTION_TIMEOUT_ERROR []
  else
    makeBroChatClientResult BROCHAT_RESPONSE_CODE_GENERIC_CONNECTION_ERROR []

/-- handleHttpRequestErrorWithContent from the source. -/
def handleHttpRequestErrorWithContent {T : Type} (err : GoError) (content : T) :
    BroChatClientContentResult T :=
  if err.isNetError && err.isTimeout then
    makeBroChatClientContentResult BROCHAT_RESPONSE_CODE_CONNECTION_TIMEOUT_ERROR
      content []
  else
    makeBroChatClientContentResult BROCHAT_RESPONSE_CODE_GENERIC_CONNECTION_ERROR
      content []

/-- handleUnsuccessfulStatusCode: decode the body as a server error shape;
if that fails, fall back on the status code (401, 403, 404, 400, else);
if it succeeds, propagate the embedded code and details verbatim. -/
def handleUnsuccessfulStatusCode (statusCode : Nat)
    (errorBody : Option BroChatError) : BroChatClientResult :=
  match errorBody with
  | none =>
    if statusCode = 401 then
      makeBroChatClientResult BROCHAT_RESPONSE_CODE_UNAUTHORIZED_ERROR []
    else if statusCode = 403 then
      makeBroChatClientResult BROCHAT_RESPONSE_CODE_FORBIDDEN_ERROR []
    else if statusCode = 404 then
      makeBroChatClientResult BROCHAT_RESPONSE_CODE_NOT_FOUND_ERROR []
    else if statusCode = 400 then
      makeBroChatClientResult BROCHAT_RESPONSE_CODE_VALIDATION_ERROR []
    else
      makeBroChatClientResult BROCHAT_RESPONSE_CODE_UNHANDLED_ERROR []
  | some serverSideErr =>
    makeBroChatClientResult serverSideErr.Code serverSideErr.ErrorDetails

/-- handleUnsuccessfulStatusCodeWithContent from the source. -/
def handleUnsuccessfulStatusCodeWithContent {T : Type} (res : HttpResponse T)
    (content : T) : BroChatClientContentResult T :=
  { Content := content,
    result := handleUnsuccessfulStatusCode res.StatusCode res.errorBody }

/-! ## Client operations

Each operation mirrors its source step for step. The access token, path
parameters and request body values feed only external machinery (headers,
URL text, marshalled bytes) and never the returned result; the fallible
external steps appear as the Bool and HttpOutcome parameters. -/

/-- GetUser: GET, expects 200, decodes a User. -/
def GetUser (urlOk reqOk : Bool) (t : HttpOutcome User) :
    BroChatClientContentResult User :=
  if urlOk = false then
    makeBroChatClientContentResult BROCHAT_RESPONSE_CODE_INVALID_HOST_ADDRESS
      User.zero []
  else if reqOk = false then
    makeBroChatClientContentResult BROCHAT_RESPONSE_CODE_REQUEST_FORMATTING_ERROR
      User.zero []
  else
    match t with
    | .failure err => handleHttpRequestErrorWithContent err User.zero
    | .response res =>
      if res.StatusCode ≠ 200 then
        handleUnsuccessfulStatusCodeWithContent res User.zero
      else
        match res.contentBody with
        | none =>
          makeBroChatClientContentResult
            BROCHAT_RESPONSE_CODE_UNEXEPECTED_RESPONSE_ERROR User.zero []
        | some user =>
          makeBroChatClientContentResult BROCHAT_RESPONSE_CODE_SUCCESS user []

/-- GetUsers: GET, expects 200, decodes a list of UserInfo. -/
def GetUsers (urlOk reqOk : Bool) (t : HttpOutcome (List UserInfo)) :
    BroChatClientContentResult (List UserInfo) :=
  if urlOk = false then
    makeBroChatClientContentResult BROCHAT_RESPONSE_CODE_INVALID_HOST_ADDRESS [] []
  else if reqOk = false then
    makeBroChatClientContentResult BROCHAT_RESPONSE_CODE_REQUEST_FORMATTING_ERROR
      [] []
  else
    match t with
    | .failure err => handleHttpRequestErrorWithContent err []
    | .response res =>
      if res.StatusCode ≠ 200 then
        handleUnsuccessfulStatusCodeWithContent res []
      else
        match res.contentBody with
        | none =>
          makeBroChatClientContentResult
            BROCHAT_RESPONSE_CODE_UNEXEPECTED_RESPONSE_ERROR [] []
        | some users =>
          makeBroChatClientContentResult BROCHAT_RESPONSE_CODE_SUCCESS users []

/-- GetChannel: GET, expects 200, decodes a Channel. -/
def GetChannel (urlOk reqOk : Bool) (t : HttpOutcome Channel) :
    BroChatClientContentResult Channel :=
  if urlOk = false then
    makeBroChatClientContentResult BROCHAT_RESPONSE_CODE_INVALID_HOST_ADDRESS
      Channel.zero []
  else if reqOk = false then
    makeBroChatClientContentResult BROCHAT_RESPONSE_CODE_REQUEST_FORMATTING_ERROR
      Channel.zero []
  else
    match t with
    | .failure err => handleHttpRequestErrorWithContent err Channel.zero
    | .response res =>
      if res.StatusCode ≠ 200 then
        handleUnsuccessfulStatusCodeWithContent res Channel.zero
      else
        match res.contentBody with
        | none =>
          makeBroChatClientContentResult
            BROCHAT_RESPONSE_CODE_UNEXEPECTED_RESPONSE_ERROR Channel.zero []
        | some channel =>
          makeBroChatClientContentResult BROCHAT_RESPONSE_CODE_SUCCESS channel []

/-- GetChannelMessages: GET, expects 200, decodes a list of ChatMessage. -/
def GetChannelMessages (urlOk reqOk : Bool)
    (t : HttpOutcome (List ChatMessage)) :
    BroChatClientContentResult (List ChatMessage) :=
  if urlOk = false then
    makeBroChatClientContentResult BROCHAT_RESPONSE_CODE_INVALID_HOST_ADDRESS [] []
  else if reqOk = false then
    makeBroChatClientContentResult BROCHAT_RESPONSE_CODE_REQUEST_FORMATTING_ERROR
      [] []
  else
    match t with
    | .failure err => handleHttpRequestErrorWithContent err []
    | .response res =>
      if res.StatusCode ≠ 200 then
        handleUnsuccessfulStatusCodeWithContent res []
      else
        match res.contentBody with
        | none =>
          makeBroChatClientContentResult
            BROCHAT_RESPONSE_CODE_UNEXEPECTED_RESPONSE_ERROR [] []
        | some channels =>
          makeBroChatClientContentResult BROCHAT_RESPONSE_CODE_SUCCESS channels []

/-- SendFriendRequest: PUT with a JSON body, expects 204, no content. -/
def SendFriendRequest (urlOk marshalOk reqOk : Bool) (t : HttpOutcome Unit) :
    BroChatClientResult :=
  if urlOk = false then
    makeBroChatClientResult BROCHAT_RESPONSE_CODE_INVALID_HOST_ADDRESS []
  else if marshalOk = false then
    makeBroChatClientResult BROCHAT_RESPONSE_CODE_REQUEST_FORMATTING_ERROR []
  else if reqOk = false then
    makeBroChatClientResult BROCHAT_RESPONSE_CODE_REQUEST_FORMATTING_ERROR []
  else
    match t with
    | .failure err => handleHttpRequestError err
    | .response res =>
      if res.StatusCode ≠ 204 then
        handleUnsuccessfulStatusCode res.StatusCode res.errorBody
      else
        makeBroChatClientResult BROCHAT_RESPONSE_CODE_SUCCESS []

/-- AcceptFriendRequest: PUT with a JSON body, expects 204, no content. -/
def AcceptFriendRequest (urlOk marshalOk reqOk : Bool) (t : HttpOutcome Unit) :
    BroChatClientResult :=
  if urlOk = false then
    makeBroChatClientResult BROCHAT_RESPONSE_CODE_INVALID_HOST_ADDRESS []
  else if marshalOk = false then
    makeBroChatClientResult BROCHAT_RESPONSE_CODE_REQUEST_FORMATTING_ERROR []
  else if reqOk = false then
    makeBroChatClientResult BROCHAT_RESPONSE_CODE_REQUEST_FORMATTING_ERROR []
  else
    match t with
    | .failure err => handleHttpRequestError err
    | .response res =>
      if res.StatusCode ≠ 204 then
        handleUnsuccessfulStatusCode res.StatusCode res.errorBody
      else
        makeBroChatClientResult BROCHAT_RESPONSE_CODE_SUCCESS []

/-- GetRooms: GET, expects 200, decodes a list of Room. -/
def GetRooms (urlOk reqOk : Bool) (t : HttpOutcome (List Room)) :
    BroChatClientContentResult (List Room) :=
  if urlOk = false then
    makeBroChatClientContentResult BROCHAT_RESPONSE_CODE_INVALID_HOST_ADDRESS [] []
  else if reqOk = false then
    makeBroChatClientContentResult BROCHAT_RESPONSE_CODE_REQUEST_FORMATTING_ERROR
      [] []
  else
    match t with
    | .failure err => handleHttpRequestErrorWithContent err []
    | .response res =>
      if res.StatusCode ≠ 200 then
        handleUnsuccessfulStatusCodeWithContent res []
      else
        match res.contentBody with
        | none =>
          makeBroChatClientContentResult
            BROCHAT_RESPONSE_CODE_UNEXEPECTED_RESPONSE_ERROR [] []
        | some rooms =>
          makeBroChatClientContentResult BROCHAT_RESPONSE_CODE_SUCCESS rooms []

/-- CreateRoom: POST with a JSON body, expects 201, decodes a Room. -/
def CreateRoom (urlOk marshalOk reqOk : Bool) (t : HttpOutcome Room) :
    BroChatClientContentResult Room :=
  if urlOk = false then
    makeBroChatClientContentResult BROCHAT_RESPONSE_CODE_INVALID_HOST_ADDRESS
      Room.zero []
  else if marshalOk = false then
    makeBroChatClientContentResult BROCHAT_RESPONSE_CODE_REQUEST_FORMATTING_ERROR
      Room.zero []
  else if reqOk = false then
    makeBroChatClientContentResult BROCHAT_RESPONSE_CODE_REQUEST_FORMATTING_ERROR
      Room.zero []
  else
    match t with
    | .failure err => handleHttpRequestErrorWithContent err Room.zero
    | .response res =>
      if res.StatusCode ≠ 201 then
        handleUnsuccessfulStatusCodeWithContent res Room.zero
      else
        match res.contentBody with
        | none =>
          makeBroChatClientContentResult
            BROCHAT_RESPONSE_CODE_UNEXEPECTED_RESPONSE_ERROR Room.zero []
        | some room =>
          makeBroChatClientContentResult BROCHAT_RESPONSE_CODE_SUCCESS room []

/-- JoinRoom: PUT, expects 204, no content. The transport-error handling is
written inline in the source rather than through handleHttpRequestError,
with the same timeout test. -/
def JoinRoom (urlOk reqOk : Bool) (t : HttpOutcome Unit) : BroChatClientResult :=
  if urlOk = false then
    makeBroChatClientResult BROCHAT_RESPONSE_CODE_INVALID_HOST_ADDRESS []
  else if reqOk = false then
    makeBroChatClientResult BROCHAT_RESPONSE_CODE_REQUEST_FORMATTING_ERROR []
  else
    match t with
    | .failure err =>
      if err.isNetError && err.isTimeout then
        makeBroChatClientResult BROCHAT_RESPONSE_CODE_CONNECTION_TIMEOUT_ERROR []
      else
        makeBroChatClientResult BROCHAT_RESPONSE_CODE_GENERIC_CONNECTION_ERROR []
    | .response res =>
      if res.StatusCode ≠ 204 then
        handleUnsuccessfulStatusCode res.StatusCode res.errorBody
      else
        makeBroChatClientResult BROCHAT_RESPONSE_CODE_SUCCESS []

/-- C6: when the transport call itself fails, every operation returns the
connection-timeout code for a net.Error reporting a timeout and the generic
connection-error code for every other transport error, and the two codes
are distinct. JoinRoom implements the same test inline. -/
theorem c6_transport_failure_codes (e : GoError) :
    (handleHttpRequestError e =
      if e.isNetError && e.isTimeout then
        makeBroChatClientResult BROCHAT_RESPONSE_CODE_CONNECTION_TIMEOUT_ERROR []
      else
        makeBroChatClientResult BROCHAT_RESPONSE_CODE_GENERIC_CONNECTION_ERROR []) ∧
    (GetUser true true (.failure e)).result = handleHttpRequestError e ∧
    (GetUsers true true (.failure e)).result = handleHttpRequestError e ∧
    (GetChannel true true (.failure e)).result = handleHttpRequestError e ∧
    (GetChannelMessages true true (.failure e)).result = handleHttpRequestError e ∧
    SendFriendRequest true true true (.failure e) = handleHttpRequestError e ∧
    AcceptFriendRequest true true true (.failure e) = handleHttpRequestError e ∧
    (GetRooms true true (.failure e)).result = handleHttpRequestError e ∧
    (CreateRoom true true true (.failure e)).result = handleHttpRequestError e ∧
    JoinRoom true true (.failure e) = handleHttpRequestError e ∧
    BROCHAT_RESPONSE_CODE_CONNECTION_TIMEOUT_ERROR ≠
      BROCHAT_RESPONSE_CODE_GENERIC_CONNECTION_ERROR := by
  obtain ⟨ne, ti⟩ := e
  cases ne <;> cases ti <;> decide

/-- C7: when the status is not the operation's expected success status every
operation routes through handleUnsuccessfulStatusCode, which propagates a
decodable server error body verbatim and otherwise falls back on the status
map 401, 403, 404, 400, else unhandled; GetUser against a bare 404 yields
the not-found failure code; and at the expected success status an
undecodable content body yields the unexpected-response code. -/
theorem c7_status_and_body_handling :
    (∀ (statusCode : Nat) (e : BroChatError),
      handleUnsuccessfulStatusCode statusCode (some e) =
        makeBroChatClientResult e.Code e.ErrorDetails) ∧
    (handleUnsuccessfulStatusCode 401 none =
      makeBroChatClientResult BROCHAT_RESPONSE_CODE_UNAUTHORIZED_ERROR []) ∧
    (handleUnsuccessfulStatusCode 403 none =
      makeBroChatClientResult BROCHAT_RESPONSE_CODE_FORBIDDEN_ERROR []) ∧
    (handleUnsuccessfulStatusCode 404 none =
      makeBroChatClientResult BROCHAT_RESPONSE_CODE_NOT_FOUND_ERROR []) ∧
    (handleUnsuccessfulStatusCode 400 none =
      makeBroChatClientResult BROCHAT_RESPONSE_CODE_VALIDATION_ERROR []) ∧
    (∀ statusCode : Nat, statusCode ≠ 401 → statusCode ≠ 403 →
      statusCode ≠ 404 → statusCode ≠ 400 →
      handleUnsuccessfulStatusCode statusCode none =
        makeBroChatClientResult BROCHAT_RESPONSE_CODE_UNHANDLED_ERROR []) ∧
    (∀ res : HttpResponse User, res.StatusCode ≠ 200 →
      (GetUser true true (.response res)).result =
        handleUnsuccessfulStatusCode res.StatusCode res.errorBody) ∧
    (∀ res : HttpResponse (List UserInfo), res.StatusCode ≠ 200 →
      (GetUsers true true (.response res)).result =
        handleUnsuccessfulStatusCode res.StatusCode res.errorBody) ∧
    (∀ res : HttpResponse Channel, res.StatusCode ≠ 200 →
      (GetChannel true true (.response res)).result =
        handleUnsuccessfulStatusCode res.StatusCode res.errorBody) ∧
    (∀ res : HttpResponse (List ChatMessage), res.StatusCode ≠ 200 →
      (GetChannelMessages true true (.response res)).result =
        handleUnsuccessfulStatusCode res.StatusCode res.errorBody) ∧
    (∀ res : HttpResponse Unit, res.StatusCode ≠ 204 →
      SendFriendRequest true true true (.response res) =
        handleUnsuccessfulStatusCode res.StatusCode res.errorBody) ∧
    (∀ res : HttpResponse Unit, res.StatusCode ≠ 204 →
      AcceptFriendRequest true true true (.response res) =
        handleUnsuccessfulStatusCode res.StatusCode res.errorBody) ∧
    (∀ res : HttpResponse (List Room), res.StatusCode ≠ 200 →
      (GetRooms true true (.response res)).result =
        handleUnsuccessfulStatusCode res.StatusCode res.errorBody) ∧
    (∀ res : HttpResponse Room, res.StatusCode ≠ 201 →
      (CreateRoom true true true (.response res)).result =
        handleUnsuccessfulStatusCode res.StatusCode res.errorBody) ∧
    (∀ res : HttpResponse Unit, res.StatusCode ≠ 204 →
      JoinRoom true true (.response res) =
        handleUnsuccessfulStatusCode res.StatusCode res.errorBody) ∧
    ((GetUser true true (.response ⟨404, none, none⟩)).result.ResponseCode =
        BROCHAT_RESPONSE_CODE_NOT_FOUND_ERROR ∧
      BROCHAT_RESPONSE_CODE_NOT_FOUND_ERROR < 128) ∧
    (∀ eb, (GetUser true true (.response ⟨200, eb, none⟩)).result.ResponseCode =
      BROCHAT_RESPONSE_CODE_UNEXEPECTED_RESPONSE_ERROR) ∧
    (∀ eb, (GetUsers true true (.response ⟨200, eb, none⟩)).result.ResponseCode =
      BROCHAT_RESPONSE_CODE_UNEXEPECTED_RESPONSE_ERROR) ∧
    (∀ eb, (GetChannel true true (.response ⟨200, eb, none⟩)).result.ResponseCode =
      BROCHAT_RESPONSE_CODE_UNEXEPECTED_RESPONSE_ERROR) ∧
    (∀ eb,
      (GetChannelMessages true true (.response ⟨200, eb, none⟩)).result.ResponseCode =
        BROCHAT_RESPONSE_CODE_UNEXEPECTED_RESPONSE_ERROR) ∧
    (∀ eb, (GetRooms true true (.response ⟨200, eb, none⟩)).result.ResponseCode =
      BROCHAT_RESPONSE_CODE_UNEXEPECTED_RESPONSE_ERROR) ∧
    (∀ eb,
      (CreateRoom true true true (.response ⟨201, eb, none⟩)).result.ResponseCode =
        BROCHAT_RESPONSE_CODE_UNEXEPECTED_RESPONSE_ERROR) := by
  refine ⟨fun s e => rfl, by decide, by decide, by decide, by decide,
    ?_, ?_, ?_, ?_, ?_, ?_, ?_, ?_, ?_, ?_, by decide,
    fun eb => rfl, fun eb => rfl, fun eb => rfl, fun eb => rfl, fun eb => rfl,
    fun eb => rfl⟩
  · intro s h1 h2 h3 h4
    simp [handleUnsuccessfulStatusCode, h1, h2, h3, h4]
  · intro res h
    obtain ⟨sc, eb, cb⟩ := res
    simp only at h
    simp [GetUser, handleUnsuccessfulStatusCodeWithContent, h]
  · intro res h
    obtain ⟨sc, eb, cb⟩ := res
    simp only at h
    simp [GetUsers, handleUnsuccessfulStatusCodeWithContent, h]
  · intro res h
    obtain ⟨sc, eb, cb⟩ := res
    simp only at h
    simp [GetChannel, handleUnsuccessfulStatusCodeWithContent, h]
  · intro res h
    obtain ⟨sc, eb, cb⟩ := res
    simp only at h
    simp [GetChannelMessages, handleUnsuccessfulStatusCodeWithContent, h]
  · intro res h
    obtain ⟨sc, eb, cb⟩ := res
    simp only at h
    simp [SendFriendRequest, h]
  · intro res h
    obtain ⟨sc, eb, cb⟩ := res
    simp only at h
    simp [AcceptFriendRequest, h]
  · intro res h
    obtain ⟨sc, eb, cb⟩ := res
    simp only at h
    simp [GetRooms, handleUnsuccessfulStatusCodeWithContent, h]
  · intro res h
    obtain ⟨sc, eb, cb⟩ := res
    simp only at h
    simp [CreateRoom, handleUnsuccessfulStatusCodeWithContent, h]
  · intro res h
    obtain ⟨sc, eb, cb⟩ := res
    simp only at h
    simp [JoinRoom, h]

/-! ## Query parameters and option functions

queryParam and the option closures from the source. The url.Values map that
buildUrl mutates is modelled as an association list; Values.Set replaces
the entry for a key. URL parsing, reference resolution and percent-encoding
are external (net/url). -/

/-- queryParam from the source. -/
structure queryParam where
  key : String
  value : String
deriving DecidableEq

/-- url.Values.Set on the association-list view: replaces the key's entry. -/
def urlValuesSet (q : List (String × String)) (key value : String) :
    List (String × String) :=
  q.filter (fun kv => kv.1 ≠ key) ++ [(key, value)]

/-- The query-parameter loop of buildUrl: each parameter with a nonempty key
and nonempty value is Set into the query; every other parameter is skipped. -/
def buildQuery (q : List (String × String)) (queryParams : List queryParam) :
    List (String × String) :=
  queryParams.foldl
    (fun acc param =>
      if param.key ≠ "" ∧ param.value ≠ "" then
        urlValuesSet acc param.key param.value
      else acc)
    q

/-- Option closures append a queryParam to the collected values. -/
abbrev GetUsersOption := List queryParam → List queryParam

/-- GetChannelMessagesOption has the same shape. -/
abbrev GetChannelMessagesOption := List queryParam → List queryParam

/-- Embeds strconv.FormatBool. -/
def goFormatBool (b : Bool) : String := if b then "true" else "false"

/-- Embeds strconv.FormatUint(n, 10): the decimal rendering. The uint64
argument is modelled as Nat; the rendering agrees on all uint64 values. -/
def goFormatUint (n : Nat) : String := Nat.repr n

/-- GetUsersOption_ExcludeSelf appends key "exclude-self". -/
def GetUsersOption_ExcludeSelf (value : Bool) : GetUsersOption :=
  fun o => o ++ [{ key := "exclude-self", value := goFormatBool value }]

/-- GetUsersOption_ExcludeFriends appends key "before-msg" (the source
reuses that key; no option emits "exclude-friends"). -/
def GetUsersOption_ExcludeFriends (value : String) : GetUsersOption :=
  fun o => o ++ [{ key := "before-msg", value := value }]

/-- GetUsersOption_UsernameFilter appends key "username-filter". -/
def GetUsersOption_UsernameFilter (value : String) : GetUsersOption :=
  fun o => o ++ [{ key := "username-filter", value := value }]

/-- GetUsersOption_Page appends key "page". -/
def GetUsersOption_Page (page : Nat) : GetUsersOption :=
  fun o => o ++ [{ key := "page", value := goFormatUint page }]

/-- GetUsersOption_PageSize appends key "page-size" with the decimal
rendering of the given value, unmodified. -/
def GetUsersOption_PageSize (pageSize : Nat) : GetUsersOption :=
  fun o => o ++ [{ key := "page-size", value := goFormatUint pageSize }]

/-- GetChannelMessages_BeforeMessage appends key "before-msg". -/
def GetChannelMessages_BeforeMessage (value : String) : GetChannelMessagesOption :=
  fun o => o ++ [{ key := "before-msg", value := value }]

/-- GetChannelMessages_Page appends key "page". -/
def GetChannelMessages_Page (page : Nat) : GetChannelMessagesOption :=
  fun o => o ++ [{ key := "page", value := goFormatUint page }]

/-- GetChannelMessages_PageSize appends key "page-size" with the decimal
rendering of the given value, unmodified. -/
def GetChannelMessages_PageSize (pageSize : Nat) : GetChannelMessagesOption :=
  fun o => o ++ [{ key := "page-size", value := goFormatUint pageSize }]

/-- The option-application loop of GetUsers and GetChannelMessages: start
from the empty value list and apply each option in order. -/
def applyOptions (options : List (List queryParam → List queryParam)) :
    List queryParam :=
  options.foldl (fun opts opt => opt opts) []

/-- Helper: buildQuery preserves the invariant that every collected pair has
a nonempty key and a nonempty value. -/
theorem buildQuery_nonempty_invariant (ps : List queryParam)
    (q : List (String × String)) (hq : ∀ kv ∈ q, kv.1 ≠ "" ∧ kv.2 ≠ "") :
    ∀ kv ∈ buildQuery q ps, kv.1 ≠ "" ∧ kv.2 ≠ "" := by
  induction ps generalizing q with
  | nil => exact hq
  | cons p ps ih =>
    intro kv hkv
    have hstep :
        ∀ kv ∈ (if p.key ≠ "" ∧ p.value ≠ "" then
            urlValuesSet q p.key p.value else q),
          kv.1 ≠ "" ∧ kv.2 ≠ "" := by
      by_cases hc : p.key ≠ "" ∧ p.value ≠ ""
      · rw [if_pos hc]
        intro kv hkv
        rcases List.mem_append.mp hkv with hmem | hmem
        · exact hq kv (List.mem_of_mem_filter hmem)
        · rcases List.mem_singleton.mp hmem with rfl
          exact hc
      · rw [if_neg hc]
        exact hq
    exact ih _ hstep kv hkv

/-- C8: buildUrl's query loop drops every option whose key or value is the
empty string, so no empty-keyed or empty-valued parameter ever appears in
the built query; and the page-size option functions emit the exact decimal
rendering of the given value, including values above 100, which reach the
query unmodified. -/
theorem c8_query_builder_drops_and_pagesize :
    (∀ (q : List (String × String)) (p : queryParam) (ps : List queryParam),
      p.key = "" ∨ p.value = "" → buildQuery q (p :: ps) = buildQuery q ps) ∧
    (∀ ps : List queryParam, ∀ kv ∈ buildQuery [] ps, kv.1 ≠ "" ∧ kv.2 ≠ "") ∧
    (∀ n : Nat, GetUsersOption_PageSize n [] =
      [{ key := "page-size", value := Nat.repr n }]) ∧
    (∀ n : Nat, GetChannelMessages_PageSize n [] =
      [{ key := "page-size", value := Nat.repr n }]) ∧
    (buildQuery [] (GetUsersOption_PageSize 150 []) = [("page-size", "150")]) ∧
    (buildQuery [] (GetChannelMessages_PageSize 101 []) = [("page-size", "101")]) := by
  refine ⟨?_, ?_, fun n => rfl, fun n => rfl, by decide, by decide⟩
  · intro q p ps h
    have hc : ¬(p.key ≠ "" ∧ p.value ≠ "") := by
      rcases h with h | h <;> simp [h]
    simp only [buildQuery, List.foldl_cons, if_neg hc]
  · intro ps
    exact buildQuery_nonempty_invariant ps [] (by simp)

/-- C10: GetUsersOption_ExcludeFriends emits the key "before-msg", not
"exclude-friends"; applied to the GetUsers option loop it contributes
exactly that parameter; and no GetUsers option function ever emits a
parameter keyed "exclude-friends". -/
theorem c10_exclude_friends_emits_before_msg :
    (∀ (v : String) (o : List queryParam),
      GetUsersOption_ExcludeFriends v o =
        o ++ [{ key := "before-msg", value := v }]) ∧
    (∀ v : String, applyOptions [GetUsersOption_ExcludeFriends v] =
      [{ key := "before-msg", value := v }]) ∧
    (∀ (b : Bool) (o : List queryParam) (p : queryParam),
      p ∈ GetUsersOption_ExcludeSelf b o → p ∈ o ∨ p.key = "exclude-self") ∧
    (∀ (v : String) (o : List queryParam) (p : queryParam),
      p ∈ GetUsersOption_ExcludeFriends v o → p ∈ o ∨ p.key = "before-msg") ∧
    (∀ (v : String) (o : List queryParam) (p : queryParam),
      p ∈ GetUsersOption_UsernameFilter v o → p ∈ o ∨ p.key = "username-filter") ∧
    (∀ (n : Nat) (o : List queryParam) (p : queryParam),
      p ∈ GetUsersOption_Page n o → p ∈ o ∨ p.key = "page") ∧
    (∀ (n : Nat) (o : List queryParam) (p : queryParam),
      p ∈ GetUsersOption_PageSize n o → p ∈ o ∨ p.key = "page-size") ∧
    ("exclude-self" ≠ "exclude-friends" ∧ "before-msg" ≠ "exclude-friends" ∧
      "username-filter" ≠ "exclude-friends" ∧ "page" ≠ "exclude-friends" ∧
      "page-size" ≠ "exclude-friends") := by
  refine ⟨fun v o => rfl, fun v => rfl, ?_, ?_, ?_, ?_, ?_, by decide⟩
  all_goals
    intro a o p hp
    rcases List.mem_append.mp hp with hmem | hmem
    · exact Or.inl hmem
    · rcases List.mem_singleton.mp hmem with rfl
      exact Or.inr rfl

/-! ## Feed message envelope

FeedMessageType tags and the payload structs from the source. The byte-level
JSON serialization is an external collaborator; the wire content is modelled
as a JSON value, with one marshalling function per payload struct following
its json field tags, and unmarshalling as field lookup. -/

/-- FeedMessageType is a string type in the source. -/
abbrev FeedMessageType := String

/-- Chat message request tag. -/
def FEED_MESSAGE_TYPE_CHAT_MESSAGE_REQUEST : FeedMessageType :=
  "brochat:feed_message_type:chat_message_request"

/-- Set active channel request tag. -/
def FEED_MESSAGE_TYPE_SET_ACTIVE_CHANNEL_REQUEST : FeedMessageType :=
  "brochat:feed_message_type:set_active_channel_request"

/-- User online event tag. -/
def FEED_MESSAGE_TYPE_USER_ONLINE_EVENT : FeedMessageType :=
  "brochat:feed_message_type:user_online_event"

/-- User offline event tag. -/
def FEED_MESSAGE_TYPE_USER_OFFLINE_EVENT : FeedMessageType :=
  "brochat:feed_message_type:user_offline_event"

/-- Chat notification tag. -/
def FEED_MESSAGE_TYPE_CHAT_NOTIFICATION : FeedMessageType :=
  "brochat:feed_message_type:chat_notification"

/-- Chat message tag. -/
def FEED_MESSAGE_TYPE_CHAT_MESSAGE : FeedMessageType :=
  "brochat:feed_message_type:chat_message"

/-- Friend request received tag. -/
def FEED_MESSAGE_TYPE_FRIEND_REQUEST_RECIEVED : FeedMessageType :=
  "brochat:feed_message_type:friend_request_recieved"

/-- Friend request accepted tag. -/
def FEED_MESSAGE_TYPE_FRIEND_REQUEST_ACCEPTED : FeedMessageType :=
  "brochat:feed_message_type:friend_request_accepted"

/-- Room created tag. -/
def FEED_MESSAGE_TYPE_ROOM_CREATED : FeedMessageType :=
  "brochat:feed_message_type:room_created"

/-- User joined room tag. -/
def FEED_MESSAGE_TYPE_USER_JOINED_ROOM : FeedMessageType :=
  "brochat:feed_message_type:user_joined_room"

/-- User profile updated tag. -/
def FEED_MESSAGE_TYPE_USER_PROFILE_UPDATED : FeedMessageType :=
  "brochat:feed_message_type:user_profile_updated"

/-- UserProfileUpdateCode is uint8 in the source. -/
abbrev UserProfileUpdateCode := Fin 256

/-- The rooms-updated profile update code (0x1). -/
def USER_PROFILE_UPDATE_CODE_ROOM_UPDATE : UserProfileUpdateCode := 1

/-- The relationships-updated profile update code (0x2). -/
def USER_PROFILE_UPDATE_REASON_RELATIONSHIP_UPDATE : UserProfileUpdateCode := 2

/-- ChatNotification from the source. -/
structure ChatNotification where
  ChannelId : String
deriving DecidableEq

/-- ChatMessageRequest from the source. -/
structure ChatMessageRequest where
  ChannelId : String
  Content : String
deriving DecidableEq

/-- SetActiveChannelRequest from the source. -/
structure SetActiveChannelRequest where
  ChannelId : String
deriving DecidableEq

/-- FriendRequestRecievedEvent from the source. -/
structure FriendRequestRecievedEvent where
  InitiatingUser : UserInfo
  RequestedUser : UserInfo
deriving DecidableEq

/-- FriendRequestAcceptedEvent from the source. -/
structure FriendRequestAcceptedEvent where
  InitiatingUser : UserInfo
  AcceptingUser : UserInfo
  DirectMessageChannel : String
deriving DecidableEq

/-- UserProfileUpdatedEvent from the source (json tag "reason"). -/
structure UserProfileUpdatedEvent where
  UpdateCode : UserProfileUpdateCode
deriving DecidableEq

/-- A JSON value: the wire form of marshalled content, with the byte-level
rendering left to the external JSON primitives. -/
inductive JValue where
  | jnull
  | jbool (b : Bool)
  | jnum (n : Int)
  | jstr (s : String)
  | jarr (xs : List JValue)
  | jobj (fields : List (String × JValue))

/-- Field lookup in a JSON object, first match wins. -/
def jsonField (fields : List (String × JValue)) (name : String) : Option JValue :=
  match fields with
  | [] => none
  | (k, v) :: rest => if k = name then some v else jsonField rest name

/-- Unmarshal a JSON value into a uint8, as encoding/json does: a number in
the uint8 range; anything else is rejected. -/
def jvalueToUint8 : JValue → Option UserProfileUpdateCode
  | .jnum n => if h : 0 ≤ n ∧ n < 256 then some ⟨n.toNat, by omega⟩ else none
  | _ => none

/-- Marshal GoTime: time.Time marshals to its textual representation. -/
def GoTime.toJson (t : GoTime) : JValue := .jstr t.rep

/-- Unmarshal GoTime. -/
def GoTime.fromJson : JValue → Option GoTime
  | .jstr s => some { rep := s }
  | _ => none

/-- Marshal ChatMessageRequest by its json tags. -/
def ChatMessageRequest.toJson (v : ChatMessageRequest) : JValue :=
  .jobj [("channel_id", .jstr v.ChannelId), ("content", .jstr v.Content)]

/-- Unmarshal ChatMessageRequest. -/
def ChatMessageRequest.fromJson : JValue → Option ChatMessageRequest
  | .jobj fields =>
    match jsonField fields "channel_id", jsonField fields "content" with
    | some (.jstr c), some (.jstr t) => some { ChannelId := c, Content := t }
    | _, _ => none
  | _ => none

/-- Marshal ChatNotification by its json tags. -/
def ChatNotification.toJson (v : ChatNotification) : JValue :=
  .jobj [("channel_id", .jstr v.ChannelId)]

/-- Unmarshal ChatNotification. -/
def ChatNotification.fromJson : JValue → Option ChatNotification
  | .jobj fields =>
    match jsonField fields "channel_id" with
    | some (.jstr c) => some { ChannelId := c }
    | _ => none
  | _ => none

/-- Marshal SetActiveChannelRequest by its json tags. -/
def SetActiveChannelRequest.toJson (v : SetActiveChannelRequest) : JValue :=
  .jobj [("channel_id", .jstr v.ChannelId)]

/-- Unmarshal SetActiveChannelRequest. -/
def SetActiveChannelRequest.fromJson : JValue → Option SetActiveChannelRequest
  | .jobj fields =>
    match jsonField fields "channel_id" with
    | some (.jstr c) => some { ChannelId := c }
    | _ => none
  | _ => none

/-- Marshal ChatMessage by its json tags. -/
def ChatMessage.toJson (v : ChatMessage) : JValue :=
  .jobj [("id", .jstr v.Id), ("channel_id", .jstr v.ChannelId),
    ("sender_user_id", .jstr v.SenderUserId), ("content", .jstr v.Content),
    ("recieved_at_utc", v.RecievedAtUtc.toJson)]

/-- Unmarshal ChatMessage. -/
def ChatMessage.fromJson : JValue → Option ChatMessage
  | .jobj fields =>
    match jsonField fields "id", jsonField fields "channel_id",
        jsonField fields "sender_user_id", jsonField fields "content",
        jsonField fields "recieved_at_utc" with
    | some (.jstr i), some (.jstr c), some (.jstr s), some (.jstr t),
        some (.jstr r) =>
      some { Id := i, ChannelId := c, SenderUserId := s, Content := t,
             RecievedAtUtc := { rep := r } }
    | _, _, _, _, _ => none
  | _ => none

/-- Marshal UserInfo by its json tags. -/
def UserInfo.toJson (u : UserInfo) : JValue :=
  .jobj [("id", .jstr u.Id), ("username", .jstr u.Username),
    ("last_online_utc", u.LastOnlineUtc.toJson)]

/-- Unmarshal UserInfo. -/
def UserInfo.fromJson : JValue → Option UserInfo
  | .jobj fields =>
    match jsonField fields "id", jsonField fields "username",
        jsonField fields "last_online_utc" with
    | some (.jstr i), some (.jstr u), some (.jstr t) =>
      some { Id := i, Username := u, LastOnlineUtc := { rep := t } }
    | _, _, _ => none
  | _ => none

/-- Marshal FriendRequestRecievedEvent by its json tags. -/
def FriendRequestRecievedEvent.toJson (v : FriendRequestRecievedEvent) : JValue :=
  .jobj [("initiating_user", v.InitiatingUser.toJson),
    ("requested_user", v.RequestedUser.toJson)]

/-- Unmarshal FriendRequestRecievedEvent. -/
def FriendRequestRecievedEvent.fromJson :
    JValue → Option FriendRequestRecievedEvent
  | .jobj fields =>
    match jsonField fields "initiating_user", jsonField fields "requested_user" with
    | some ji, some jr =>
      match UserInfo.fromJson ji, UserInfo.fromJson jr with
      | some i, some r => some { InitiatingUser := i, RequestedUser := r }
      | _, _ => none
    | _, _ => none
  | _ => none

/-- Marshal FriendRequestAcceptedEvent by its json tags. -/
def FriendRequestAcceptedEvent.toJson (v : FriendRequestAcceptedEvent) : JValue :=
  .jobj [("initiating_user", v.InitiatingUser.toJson),
    ("accepting_user", v.AcceptingUser.toJson),
    ("direct_message_channel", .jstr v.DirectMessageChannel)]

/-- Unmarshal FriendRequestAcceptedEvent. -/
def FriendRequestAcceptedEvent.fromJson :
    JValue → Option FriendRequestAcceptedEvent
  | .jobj fields =>
    match jsonField fields "initiating_user", jsonField fields "accepting_user",
        jsonField fields "direct_message_channel" with
    | some ji, some ja, some (.jstr d) =>
      match UserInfo.fromJson ji, UserInfo.fromJson ja with
      | some i, some a =>
        some { InitiatingUser := i, AcceptingUser := a,
               DirectMessageChannel := d }
      | _, _ => none
    | _, _, _ => none
  | _ => none

/-- Marshal UserProfileUpdatedEvent by its json tags. -/
def UserProfileUpdatedEvent.toJson (v : UserProfileUpdatedEvent) : JValue :=
  .jobj [("reason", .jnum (v.UpdateCode.val : Int))]

/-- Unmarshal UserProfileUpdatedEvent. -/
def UserProfileUpdatedEvent.fromJson : JValue → Option UserProfileUpdatedEvent
  | .jobj fields =>
    match jsonField fields "reason" with
    | some j =>
      match jvalueToUint8 j with
      | some c => some { UpdateCode := c }
      | none => none
    | none => none
  | _ => none

/-- The feed payload variants whose shapes the repository defines, one
constructor per variant. -/
inductive FeedPayload where
  | chatMessageRequest (v : ChatMessageRequest)
  | setActiveChannelRequest (v : SetActiveChannelRequest)
  | chatNotification (v : ChatNotification)
  | chatMessage (v : ChatMessage)
  | friendRequestRecieved (v : FriendRequestRecievedEvent)
  | friendRequestAccepted (v : FriendRequestAcceptedEvent)
  | userProfileUpdated (v : UserProfileUpdatedEvent)
deriving DecidableEq

/-- Modelled from the spec: the association of each payload variant with its
type tag (the source defines the tags and the payload structs but no
dispatch table is among the repository files given). -/
def payloadType : FeedPayload → FeedMessageType
  | .chatMessageRequest _ => FEED_MESSAGE_TYPE_CHAT_MESSAGE_REQUEST
  | .setActiveChannelRequest _ => FEED_MESSAGE_TYPE_SET_ACTIVE_CHANNEL_REQUEST
  | .chatNotification _ => FEED_MESSAGE_TYPE_CHAT_NOTIFICATION
  | .chatMessage _ => FEED_MESSAGE_TYPE_CHAT_MESSAGE
  | .friendRequestRecieved _ => FEED_MESSAGE_TYPE_FRIEND_REQUEST_RECIEVED
  | .friendRequestAccepted _ => FEED_MESSAGE_TYPE_FRIEND_REQUEST_ACCEPTED
  | .userProfileUpdated _ => FEED_MESSAGE_TYPE_USER_PROFILE_UPDATED

/-- json.Marshal on a feed payload: the per-struct marshalling. It never
fails for these struct types. -/
def marshalPayload : FeedPayload → JValue
  | .chatMessageRequest v => v.toJson
  | .setActiveChannelRequest v => v.toJson
  | .chatNotification v => v.toJson
  | .chatMessage v => v.toJson
  | .friendRequestRecieved v => v.toJson
  | .friendRequestAccepted v => v.toJson
  | .userProfileUpdated v => v.toJson

/-- FeedMessage from the source; field Type renamed Type'. Content is []byte
in the source; its byte rendering is external, so the JSON value stands for
it here. -/
structure FeedMessage where
  Type' : FeedMessageType
  ContentType : String
  Content : JValue

/-- NewFeedMessageJSON: marshal the content, stamp the given type and the
JSON content type. The Option mirrors the (FeedMessage, error) pair of the
source; marshalling a defined payload variant always succeeds. -/
def NewFeedMessageJSON (messageType : FeedMessageType) (content : FeedPayload) :
    Option FeedMessage :=
  some { ContentType := "application/json", Content := marshalPayload content,
         Type' := messageType }

/-- The outcome of decoding a feed envelope. -/
inductive FeedDecodeResult where
  | ok (p : FeedPayload)
  | malformedPayload
  | unsupportedContentType (contentType : String)
  | unrecognizedType (tag : String)

/-- Modelled from the spec: decode(envelope) dispatches on the content type
and the type tag, unmarshals the content into the variant the tag selects,
keeps unknown tags as an unrecognized-variant outcome and distinguishes an
unsupported content type from a malformed payload. -/
def decodeFeedMessage (m : FeedMessage) : FeedDecodeResult :=
  if m.ContentType ≠ "application/json" then
    .unsupportedContentType m.ContentType
  else if m.Type' = FEED_MESSAGE_TYPE_CHAT_MESSAGE_REQUEST then
    match ChatMessageRequest.fromJson m.Content with
    | some v => .ok (.chatMessageRequest v)
    | none => .malformedPayload
  else if m.Type' = FEED_MESSAGE_TYPE_SET_ACTIVE_CHANNEL_REQUEST then
    match SetActiveChannelRequest.fromJson m.Content with
    | some v => .ok (.setActiveChannelRequest v)
    | none => .malformedPayload
  else if m.Type' = FEED_MESSAGE_TYPE_CHAT_NOTIFICATION then
    match ChatNotification.fromJson m.Content with
    | some v => .ok (.chatNotification v)
    | none => .malformedPayload
  else if m.Type' = FEED_MESSAGE_TYPE_CHAT_MESSAGE then
    match ChatMessage.fromJson m.Content with
    | some v => .ok (.chatMessage v)
    | none => .malformedPayload
  else if m.Type' = FEED_MESSAGE_TYPE_FRIEND_REQUEST_RECIEVED then
    match FriendRequestRecievedEvent.fromJson m.Content with
    | some v => .ok (.friendRequestRecieved v)
    | none => .malformedPayload
  else if m.Type' = FEED_MESSAGE_TYPE_FRIEND_REQUEST_ACCEPTED then
    match FriendRequestAcceptedEvent.fromJson m.Content with
    | some v => .ok (.friendRequestAccepted v)
    | none => .malformedPayload
  else if m.Type' = FEED_MESSAGE_TYPE_USER_PROFILE_UPDATED then
    match UserProfileUpdatedEvent.fromJson m.Content with
    | some v => .ok (.userProfileUpdated v)
    | none => .malformedPayload
  else
    .unrecognizedType m.Type'

/-- Helper: unmarshalling inverts marshalling for the uint8 update code. -/
theorem jvalueToUint8_roundtrip (c : UserProfileUpdateCode) :
    jvalueToUint8 (.jnum (c.val : Int)) = some c := by
  have h : (0 : Int) ≤ (c.val : Int) ∧ (c.val : Int) < 256 := by
    refine ⟨Int.natCast_nonneg _, ?_⟩
    exact_mod_cast c.isLt
  simp only [jvalueToUint8, dif_pos h]
  refine congrArg some (Fin.ext ?_)
  show ((c.val : Int)).toNat = c.val
  omega

/-- Helper: unmarshalling inverts marshalling for UserProfileUpdatedEvent. -/
theorem UserProfileUpdatedEvent.fromJson_toJson (v : UserProfileUpdatedEvent) :
    UserProfileUpdatedEvent.fromJson v.toJson = some v := by
  simp [UserProfileUpdatedEvent.toJson, UserProfileUpdatedEvent.fromJson,
    jsonField, jvalueToUint8_roundtrip]

/-- Helper: on an envelope stamped with the user-profile-updated tag and the
JSON content type, decoding unmarshals the content as a
UserProfileUpdatedEvent. -/
theorem decode_userProfileUpdated_eq (j : JValue) :
    decodeFeedMessage ⟨FEED_MESSAGE_TYPE_USER_PROFILE_UPDATED, "application/json", j⟩ =
      match UserProfileUpdatedEvent.fromJson j with
      | some v => .ok (.userProfileUpdated v)
      | none => .malformedPayload := rfl

/-- C9: for every defined feed message variant and payload value, the
encoder stamps the variant's type tag, sets the JSON content type and
stores the marshalled payload as the content, and decoding the envelope so
produced reproduces the payload exactly. -/
theorem c9_feed_envelope_roundtrip (p : FeedPayload) :
    NewFeedMessageJSON (payloadType p) p =
      some ⟨payloadType p, "application/json", marshalPayload p⟩ ∧
    decodeFeedMessage ⟨payloadType p, "application/json", marshalPayload p⟩ =
      .ok p := by
  refine ⟨rfl, ?_⟩
  cases p with
  | userProfileUpdated v =>
    rw [payloadType, marshalPayload, decode_userProfileUpdated_eq,
      UserProfileUpdatedEvent.fromJson_toJson]
  | chatMessageRequest v => rfl
  | setActiveChannelRequest v => rfl
  | chatNotification v => rfl
  | chatMessage v => rfl
  | friendRequestRecieved v => rfl
  | friendRequestAccepted v => rfl

end Brolib
